import Mathlib

/-!
Shallow embedding of the OMNIMIND ascension_ui panel components
(src/ascension_ui/components/NeuralMesh.js, EmotionPlasma.js /
PluginChamber, MindTimeline.js) together with theorems settling the
specification claims about them.

Numeric values from the JavaScript source (0.2, 1.5, 0.003, ...) are
modelled as exact rationals; React `useState` slots become explicit
state values threaded through step functions; per-frame `useFrame`
mutations become explicit state-to-state functions.
-/

namespace OmniMind

/-! ## Data model (NeuralMesh.js lines 13-27) -/

/-- A node of the memory-mesh graph, as in the `nodesStub` entries of
NeuralMesh.js: `{ id, type, position, label }`. -/
structure GraphNode where
  id : Nat
  type : String
  position : ℚ × ℚ × ℚ
  label : String
deriving DecidableEq, Repr

/-- A link of the graph, as in `linksStub`: `{ source, target }`. -/
structure GraphLink where
  source : Nat
  target : Nat
deriving DecidableEq, Repr

/-- `NODE_TYPES` colour record of NeuralMesh.js: a lookup from the node
type string to a colour; an unknown type yields `undefined`, modelled
as `none`. -/
def NODE_TYPES (t : String) : Option String :=
  if t = "episodic" then some "#3b82f6"
  else if t = "semantic" then some "#22d3ee"
  else if t = "procedural" then some "#f59e42"
  else none

/-- `nodesStub` of NeuralMesh.js. -/
def nodesStub : List GraphNode :=
  [ ⟨1, "episodic", (0, 0, 0), "E1"⟩,
    ⟨2, "semantic", (2, 1, -1), "S1"⟩,
    ⟨3, "procedural", (-2, -1, 1), "P1"⟩ ]

/-- `linksStub` of NeuralMesh.js. -/
def linksStub : List GraphLink := [⟨1, 2⟩, ⟨2, 3⟩]

/-! ## NeuralMesh interaction state (NeuralMesh.js lines 48-64, 85-92)

`const [activeNode, setActiveNode] = useState(null)` is the only
interaction state of the panel.  A node's `onClick` runs
`setActiveNode(node)`; the overlay Close button runs
`setActiveNode(null)`.  The `<Node>` meshes carry no pointer-over or
pointer-out handlers, so pointer enter/leave events reach the panel but
change nothing. -/

/-- Events a NeuralMesh panel can receive.  `pointerEnter`/`pointerLeave`
are delivered by the host but NeuralMesh.js attaches no handler for
them. -/
inductive MeshEvent where
  | click (n : GraphNode)
  | closeAction
  | pointerEnter (id : Nat)
  | pointerLeave (id : Nat)
deriving DecidableEq, Repr

/-- One event step of the NeuralMesh panel state (`activeNode`).
`click` runs `setActiveNode(node)`, `closeAction` runs
`setActiveNode(null)`; pointer events have no handler and leave the
state unchanged. -/
def meshStep (s : Option GraphNode) : MeshEvent → Option GraphNode
  | .click n => some n
  | .closeAction => none
  | .pointerEnter _ => s
  | .pointerLeave _ => s

/-- Folding a whole event sequence through the panel. -/
def meshRun (s : Option GraphNode) (es : List MeshEvent) : Option GraphNode :=
  es.foldl meshStep s

/-- The `active` prop computed for a node in the render loop:
`activeNode && activeNode.id === node.id` (NeuralMesh.js line 62). -/
def meshActive (s : Option GraphNode) (n : GraphNode) : Bool :=
  match s with
  | some a => a.id == n.id
  | none => false

/-- `emissiveIntensity={active ? 1.5 : 0.2}` (NeuralMesh.js line 34). -/
def nodeEmissiveIntensity (active : Bool) : ℚ :=
  if active then 1.5 else 0.2

/-- How many nodes of the list render as active under panel state `s`. -/
def activeCount (nodes : List GraphNode) (s : Option GraphNode) : Nat :=
  (nodes.filter (fun n => meshActive s n)).length

/-! ## Link resolution (NeuralMesh.js lines 65-82)

`links.map(...)` looks each endpoint up with
`nodes.find((n) => n.id === link.source)`; when either lookup fails the
arrow function does `return null`, which React renders as nothing, and
the map continues with the remaining links.  No warning of any kind is
emitted on that path. -/

/-- Endpoint lookup `nodes.find((n) => n.id === x)`. -/
def findNode (nodes : List GraphNode) (x : Nat) : Option GraphNode :=
  nodes.find? (fun n => n.id == x)

/-- Whether both endpoints of a link resolve in the node list. -/
def linkResolvable (nodes : List GraphNode) (l : GraphLink) : Bool :=
  (findNode nodes l.source).isSome && (findNode nodes l.target).isSome

/-- The line segments actually rendered for a link list: a link whose
source or target lookup fails contributes nothing (`return null`) and
the remaining links are still processed. -/
def resolveLinks (nodes : List GraphNode) (links : List GraphLink) :
    List (GraphNode × GraphNode) :=
  links.filterMap (fun l =>
    match findNode nodes l.source, findNode nodes l.target with
    | some s, some t => some (s, t)
    | _, _ => none)

/-- Warnings emitted by the link render loop.  The source's skip path is
a bare `return null` (NeuralMesh.js line 68): no `console.warn` or any
other recording exists, so the emitted warning list is empty. -/
def linkWarnings (_nodes : List GraphNode) (_links : List GraphLink) :
    List String := []

/-- Number of links skipped by the `if (!source || !target) return null`
guard. -/
def skippedLinkCount (nodes : List GraphNode) (links : List GraphLink) : Nat :=
  (links.filter (fun l => !linkResolvable nodes l)).length

/-- The node spheres rendered by `nodes.map(...)` (NeuralMesh.js lines
55-64): one `<Node>` element per array entry, keyed by `node.id`, with
no de-duplication. -/
def renderedMeshNodes (nodes : List GraphNode) (s : Option GraphNode) :
    List (Nat × String × ℚ) :=
  nodes.map (fun n => (n.id, n.label, nodeEmissiveIntensity (meshActive s n)))

/-! ## EmotionPlasma (EmotionPlasma.js lines 29-43)

`PlasmaOrb` takes `emotion = { stress, focus, curiosity }` and, inside
`useFrame`, mutates the mesh: `rotation.y += 0.003 + emotion.stress *
0.01` and `scale.set(1 + emotion.stress * 0.2, 1 + emotion.focus * 0.1,
1 + emotion.curiosity * 0.15)`.  No clamping of the emotion values
appears anywhere in the file. -/

/-- The emotion scalars fed to the orb. -/
structure Emotion where
  stress : ℚ
  focus : ℚ
  curiosity : ℚ
deriving DecidableEq, Repr

/-- Mutable state of the orb mesh touched by the frame callback. -/
structure OrbMesh where
  rotY : ℚ
  scale : ℚ × ℚ × ℚ
deriving DecidableEq, Repr

/-- The per-frame rotation increment of the orb:
`0.003 + emotion.stress * 0.01`. -/
def plasmaRotDelta (e : Emotion) : ℚ := 0.003 + e.stress * 0.01

/-- The scale the frame callback sets:
`(1 + stress * 0.2, 1 + focus * 0.1, 1 + curiosity * 0.15)`. -/
def plasmaScale (e : Emotion) : ℚ × ℚ × ℚ :=
  (1 + e.stress * 0.2, 1 + e.focus * 0.1, 1 + e.curiosity * 0.15)

/-- One `useFrame` tick of `PlasmaOrb`: the rotation is incremented and
the scale overwritten, exactly as in EmotionPlasma.js lines 33-34. -/
def plasmaFrame (e : Emotion) (m : OrbMesh) : OrbMesh :=
  { rotY := m.rotY + plasmaRotDelta e, scale := plasmaScale e }

/-- Mapping a raw scalar to the clamped value the spec's `InvalidScalar`
policy describes (modelled from the spec, for comparison only: the
source contains no such operation). -/
def specClamp01 (x : ℚ) : ℚ := max 0 (min 1 x)

/-! ## PluginChamber (EmotionPlasma.js file part 2, lines 72-149)

State: `const [hovered, setHovered] = useState(null)` (a plugin id) and
`const [selected, setSelected] = useState(null)` (a plugin record).
Handlers per cube: `onPointerOver={() => setHovered(plugin.id)}`,
`onPointerOut={() => setHovered(null)}` (unconditional, the leaving
cube's id is ignored), `onClick={() => setSelected(plugin)}`; the
overlay Close button runs `setSelected(null)`. -/

/-- A plugin card, as in `pluginsStub`. -/
structure Plugin where
  id : Nat
  name : String
  status : String
  permissions : String
  lastUsed : String
deriving DecidableEq, Repr

/-- `pluginsStub` of the PluginChamber source. -/
def pluginsStub : List Plugin :=
  [ ⟨1, "WebSearch", "active", "read", "now"⟩,
    ⟨2, "Wolfram", "idle", "compute", "1h ago"⟩,
    ⟨3, "NewsFeed", "active", "read", "5m ago"⟩ ]

/-- The two `useState` slots of a PluginChamber instance. -/
structure ChamberState where
  hovered : Option Nat
  selected : Option Plugin
deriving DecidableEq, Repr

/-- Events a PluginChamber panel can receive; the payload id names the
cube whose handler fired. -/
inductive ChamberEvent where
  | pointerOver (id : Nat)
  | pointerOut (id : Nat)
  | click (p : Plugin)
  | closeAction
deriving DecidableEq, Repr

/-- One event step of the PluginChamber state.  `pointerOut` runs
`setHovered(null)` whatever cube it came from: the handler closure
ignores which plugin it belongs to. -/
def chamberStep (s : ChamberState) : ChamberEvent → ChamberState
  | .pointerOver id => { s with hovered := some id }
  | .pointerOut _ => { s with hovered := none }
  | .click p => { s with selected := some p }
  | .closeAction => { s with selected := none }

/-- Folding a whole event sequence through a PluginChamber panel. -/
def chamberRun (s : ChamberState) (es : List ChamberEvent) : ChamberState :=
  es.foldl chamberStep s

/-- Mutable rotation state of one plugin cube mesh. -/
structure CubeMesh where
  rotY : ℚ
  rotX : ℚ
deriving DecidableEq, Repr

/-- One `useFrame` tick of `PluginCube` (EmotionPlasma.js part 2, lines
80-85): rotation advances by `(0.01, 0.005)` unless the cube is
hovered, in which case the mesh is left untouched. -/
def cubeFrame (hovered : Bool) (m : CubeMesh) : CubeMesh :=
  if hovered then m else { rotY := m.rotY + 0.01, rotX := m.rotX + 0.005 }

/-- The scale prop of a cube: `hovered ? [1.4, 1.4, 1.4] : [1, 1, 1]`. -/
def cubeScale (hovered : Bool) : ℚ × ℚ × ℚ :=
  if hovered then (1.4, 1.4, 1.4) else (1, 1, 1)

/-- The cubes rendered by `plugins.map(...)`: one `<PluginCube>` per
array entry, no de-duplication. -/
def renderedPluginCubes (plugins : List Plugin) (s : ChamberState) :
    List (Nat × String × Bool) :=
  plugins.map (fun p => (p.id, p.name, s.hovered == some p.id))

/-! ## MindTimeline (MindTimeline.js lines 10-54)

The effect builds `x = d3.scalePoint().domain(events.map(e =>
e.time)).range([60, width - 60])` with `width = 600` and places one
circle per event at `cx = x(d.time)`.  A d3 point scale keeps the
first occurrence of each domain value (duplicates are skipped), and
positions the i-th distinct value at `start + step * i` with
`step = (540 - 60) / max(1, n - 1)` and
`start = 60 + (480 - step * (n - 1)) / 2`.  Nothing sorts the events or
the domain: the order is the input array order. -/

/-- A timeline event, as in `timelineStub`. -/
structure TimelineEvent where
  time : String
  type : String
  label : String
  status : String
deriving DecidableEq, Repr

/-- `timelineStub` of MindTimeline.js. -/
def timelineStub : List TimelineEvent :=
  [ ⟨"08:00", "task", "Start Session", "success"⟩,
    ⟨"09:00", "reflection", "Reflected on task", "success"⟩,
    ⟨"10:00", "task", "Failed Task", "failure"⟩,
    ⟨"11:00", "projection", "Future Plan", "pending"⟩ ]

/-- The scale's domain: the event times in input order with duplicates
dropped, keeping each time's first occurrence (d3 ordinal-domain
behaviour). -/
def scaleDomain (events : List TimelineEvent) : List String :=
  events.foldl (fun acc e => if e.time ∈ acc then acc else acc ++ [e.time]) []

/-- Spacing of the point scale over range `[60, 540]`:
`480 / max(1, n - 1)` for a domain of `n` values. -/
def pointScaleStep (n : Nat) : ℚ := 480 / (max 1 (n - 1) : Nat)

/-- Left edge of the point scale (centres a singleton domain). -/
def pointScaleStart (n : Nat) : ℚ :=
  60 + (480 - pointScaleStep n * ((n : ℚ) - 1)) / 2

/-- Index of a domain value in the scale's internal order (d3 keeps a
value-to-index map); `none` when the value is absent. -/
def domIndex : List String → String → Option Nat
  | [], _ => none
  | a :: as, t => if a = t then some 0 else (domIndex as t).map (· + 1)

/-- The horizontal position `x(t)` the scale assigns to a time, `none`
when the time is not in the domain (d3 returns `undefined`). -/
def xPosition (events : List TimelineEvent) (t : String) : Option ℚ :=
  (domIndex (scaleDomain events) t).map (fun (i : Nat) =>
    pointScaleStart (scaleDomain events).length +
      pointScaleStep (scaleDomain events).length * (i : ℚ))

/-- Numeric key of a `"HH:MM"` time string (base-256 big-endian over the
character codes), giving the chronological order the spec refers to;
the source itself never compares times, so this order is the spec's. -/
def timeVal (s : String) : Nat :=
  s.data.foldl (fun acc c => acc * 256 + c.toNat) 0

/-- Whether a list of times is strictly ascending chronologically. -/
def timesSorted : List String → Bool
  | [] => true
  | [_] => true
  | a :: b :: rest => (decide (timeVal a < timeVal b)) && timesSorted (b :: rest)

/-- The circle markers rendered by the effect: one per event, at
`cx = x(d.time)`, fill keyed by status (MindTimeline.js lines 34-43). -/
def renderedMarkers (events : List TimelineEvent) :
    List (String × Option ℚ) :=
  events.map (fun e => (e.label, xPosition events e.time))

/-- The fill colour picked for a marker (MindTimeline.js line 41). -/
def markerFill (status : String) : String :=
  if status = "success" then "#00ff6a"
  else if status = "failure" then "#ff007c"
  else "#ffb300"

/-- UI events of a MindTimeline panel: a circle's `on('click', ...)`
runs `setSelected(d)`, the overlay Close button `setSelected(null)`. -/
inductive TimelineUiEvent where
  | click (e : TimelineEvent)
  | closeAction
deriving DecidableEq, Repr

/-- One event step of the MindTimeline `selected` state. -/
def timelineStep (_s : Option TimelineEvent) :
    TimelineUiEvent → Option TimelineEvent
  | .click e => some e
  | .closeAction => none

/-! ## Per-panel isolation (claim C9)

Each component instance owns its interaction state through `useState`;
the only module-level bindings (`NODE_TYPES`, the stub arrays, `TABS`)
are never written.  A collection of mounted panels is a map from a
panel index to that panel's state, and delivering an event to panel `i`
applies that panel's step function to its own state only. -/

/-- Deliver an event to NeuralMesh panel `i` among many instances. -/
def deliverMesh (w : Nat → Option GraphNode) (i : Nat) (e : MeshEvent) :
    Nat → Option GraphNode :=
  fun j => if j = i then meshStep (w j) e else w j

/-- Deliver an event to PluginChamber panel `i` among many instances. -/
def deliverChamber (w : Nat → ChamberState) (i : Nat) (e : ChamberEvent) :
    Nat → ChamberState :=
  fun j => if j = i then chamberStep (w j) e else w j

/-- Deliver an event to MindTimeline panel `i` among many instances. -/
def deliverTimeline (w : Nat → Option TimelineEvent) (i : Nat)
    (e : TimelineUiEvent) : Nat → Option TimelineEvent :=
  fun j => if j = i then timelineStep (w j) e else w j

/-- Number of distinct ids in a node list (the spec's per-category
unique-id count). -/
def uniqueIdCount (nodes : List GraphNode) : Nat :=
  (nodes.map (·.id)).dedup.length

/-! ## Concrete inputs used to settle the claims -/

/-- The stub timeline events in a shuffled input order. -/
def shuffledEvents : List TimelineEvent :=
  [ ⟨"10:00", "task", "Failed Task", "failure"⟩,
    ⟨"08:00", "task", "Start Session", "success"⟩,
    ⟨"09:00", "reflection", "Reflected on task", "success"⟩,
    ⟨"11:00", "projection", "Future Plan", "pending"⟩ ]

/-- The spec's dangling-link scenario: nodes `E1`, `S1` only. -/
def danglingNodes : List GraphNode :=
  [ ⟨1, "episodic", (0, 0, 0), "E1"⟩,
    ⟨2, "semantic", (2, 1, -1), "S1"⟩ ]

/-- Links `E1→S1` (valid) and `S1→99` (target id absent). -/
def danglingLinks : List GraphLink := [⟨1, 2⟩, ⟨2, 99⟩]

/-- Two node entries sharing id 1. -/
def dupNodes : List GraphNode :=
  [ ⟨1, "episodic", (0, 0, 0), "E1"⟩,
    ⟨1, "episodic", (1, 0, 0), "E1b"⟩ ]

/-- A collection of freshly mounted NeuralMesh panels (all `activeNode`
slots `null`). -/
def meshWorld0 : Nat → Option GraphNode := fun _ => none

/-- A collection of freshly mounted PluginChamber panels. -/
def chamberWorld0 : Nat → ChamberState := fun _ => ⟨none, none⟩

/-- A collection of freshly mounted MindTimeline panels. -/
def timelineWorld0 : Nat → Option TimelineEvent := fun _ => none

/-! ## Helper lemmas -/

lemma scaleDomain_step_mem (acc : List String) (e : TimelineEvent) (x : String)
    (hx : x ∈ acc) :
    x ∈ (if e.time ∈ acc then acc else acc ++ [e.time]) := by
  by_cases h : e.time ∈ acc <;> simp [h, hx]

lemma foldl_scaleDomain_mono (l : List TimelineEvent) :
    ∀ (acc : List String) (x : String), x ∈ acc →
      x ∈ l.foldl (fun acc e => if e.time ∈ acc then acc else acc ++ [e.time]) acc := by
  induction l with
  | nil => intro acc x hx; simpa using hx
  | cons e l ih =>
    intro acc x hx
    exact ih _ x (scaleDomain_step_mem acc e x hx)

lemma time_mem_foldl (l : List TimelineEvent) :
    ∀ (acc : List String) (e : TimelineEvent), e ∈ l →
      e.time ∈ l.foldl (fun acc e => if e.time ∈ acc then acc else acc ++ [e.time]) acc := by
  induction l with
  | nil => intro acc e he; cases he
  | cons f l ih =>
    intro acc e he
    rcases List.mem_cons.1 he with h | h
    · subst h
      refine foldl_scaleDomain_mono l _ e.time ?_
      by_cases hf : e.time ∈ acc <;> simp [hf]
    · exact ih _ e h

lemma time_mem_scaleDomain (l : List TimelineEvent) (e : TimelineEvent) (he : e ∈ l) :
    e.time ∈ scaleDomain l :=
  time_mem_foldl l [] e he

lemma domIndex_some_of_mem : ∀ (l : List String) (t : String), t ∈ l →
    ∃ i, domIndex l t = some i := by
  intro l t
  induction l with
  | nil => intro h; cases h
  | cons a as ih =>
    intro h
    by_cases ha : a = t
    · exact ⟨0, by simp [domIndex, ha]⟩
    · rcases List.mem_cons.1 h with h' | h'
      · exact absurd h'.symm ha
      · obtain ⟨i, hi⟩ := ih h'
        exact ⟨i + 1, by simp [domIndex, ha, hi]⟩

lemma domIndex_get : ∀ (l : List String) (t : String) (i : Nat),
    domIndex l t = some i → ∃ h : i < l.length, l.get ⟨i, h⟩ = t := by
  intro l
  induction l with
  | nil => intro t i h; simp [domIndex] at h
  | cons a as ih =>
    intro t i h
    by_cases ha : a = t
    · simp [domIndex, ha] at h
      subst h
      exact ⟨by simp, ha⟩
    · simp [domIndex, ha] at h
      obtain ⟨j, hj, hji⟩ := h
      obtain ⟨hlt, hget⟩ := ih t j hj
      subst hji
      exact ⟨by simpa using Nat.succ_lt_succ hlt, by simpa using hget⟩

lemma pointScaleStep_pos (n : Nat) : 0 < pointScaleStep n := by
  unfold pointScaleStep
  apply div_pos (by norm_num)
  have h1 : (1 : Nat) ≤ max 1 (n - 1) := le_max_left _ _
  exact_mod_cast Nat.lt_of_lt_of_le Nat.zero_lt_one h1

lemma filter_id_length_le_one (k : Nat) :
    ∀ (nodes : List GraphNode), (nodes.map (·.id)).Nodup →
      (nodes.filter (fun n => k == n.id)).length ≤ 1 := by
  intro nodes
  induction nodes with
  | nil => intro _; simp
  | cons n ns ih =>
    intro hnd
    rw [List.map_cons, List.nodup_cons] at hnd
    obtain ⟨hn, hns⟩ := hnd
    by_cases hk : k = n.id
    · rw [List.filter_cons_of_pos (by simp [hk])]
      have hempty : ns.filter (fun m => k == m.id) = [] := by
        rw [List.filter_eq_nil_iff]
        intro m hm hbeq
        have hmk : k = m.id := by simpa using hbeq
        exact hn (List.mem_map.2 ⟨m, hm, hmk.symm.trans hk⟩)
      simp [hempty]
    · rw [List.filter_cons_of_neg (by simp [hk])]
      exact ih hns

lemma activeCount_le_one (nodes : List GraphNode)
    (hnd : (nodes.map (·.id)).Nodup) (s : Option GraphNode) :
    activeCount nodes s ≤ 1 := by
  cases s with
  | none => simp [activeCount, meshActive]
  | some a =>
    have := filter_id_length_le_one a.id nodes hnd
    simpa [activeCount, meshActive] using this

/-! ## Claim theorems -/

/-- C1: for every sequence of events delivered to a single panel at most
one entity renders as selected at any time (the `activeNode` slot holds
at most one node, so among nodes with distinct ids at most one is
active), and a `Click(B)` in state `Selected(A)` — indeed in any
state — goes straight to `Selected(B)`: the transition is a single
assignment that never produces the Idle (`null`) state on a click, in
both NeuralMesh and PluginChamber. -/
theorem neuralMesh_selection_invariant (nodes : List GraphNode)
    (hnd : (nodes.map (·.id)).Nodup) :
    (∀ (s : Option GraphNode) (es : List MeshEvent),
        activeCount nodes (meshRun s es) ≤ 1)
    ∧ (∀ (a b : GraphNode), meshStep (some a) (.click b) = some b)
    ∧ (∀ (s : Option GraphNode) (es : List MeshEvent) (b : GraphNode),
        meshRun s (es ++ [.click b]) = some b)
    ∧ (∀ (s : ChamberState) (p : Plugin),
        (chamberStep s (.click p)).selected = some p) := by
  refine ⟨fun s es => activeCount_le_one nodes hnd _, fun a b => rfl, ?_,
    fun s p => rfl⟩
  intro s es b
  rw [meshRun, List.foldl_append]
  rfl

/-- C1 witness: the invariant evaluated on the stub nodes after a
concrete click sequence. -/
theorem neuralMesh_selection_invariant_witness :
    (nodesStub.map (·.id)).Nodup
    ∧ activeCount nodesStub
        (meshRun none [MeshEvent.click ⟨2, "semantic", (2, 1, -1), "S1"⟩]) ≤ 1 :=
  ⟨by decide, (neuralMesh_selection_invariant nodesStub (by decide)).1 none _⟩

/-- C2 counterexample: with the stub events fed in the shuffled order
`10:00, 08:00, 09:00, 11:00`, the marker of `10:00` renders at x = 60
and the marker of the chronologically earlier `08:00` at x = 220, so
the later time sits strictly left of the earlier one: position order
does depend on the input array order. -/
theorem timeline_shuffled_cex :
    timeVal "08:00" < timeVal "10:00"
    ∧ xPosition shuffledEvents "10:00" = some 60
    ∧ xPosition shuffledEvents "08:00" = some 220
    ∧ (60 : ℚ) < 220 := by
  refine ⟨by decide, ?_, ?_, by norm_num⟩
  · rw [xPosition,
      show domIndex (scaleDomain shuffledEvents) "10:00" = some 0 from by decide,
      show (scaleDomain shuffledEvents).length = 4 from by decide]
    norm_num [pointScaleStart, pointScaleStep]
  · rw [xPosition,
      show domIndex (scaleDomain shuffledEvents) "08:00" = some 1 from by decide,
      show (scaleDomain shuffledEvents).length = 4 from by decide]
    norm_num [pointScaleStart, pointScaleStep]

/-- C2 as amended: the markers render at positions following the input
array order (first occurrence of each time), so they are in ascending
time order exactly when the input's time sequence is already
chronologically ascending; under that hypothesis any two events with
`time(e1) < time(e2)` get positions `x1 < x2`. -/
theorem timeline_sorted_marker_order (events : List TimelineEvent)
    (hs : (scaleDomain events).Pairwise (fun a b => timeVal a < timeVal b))
    (e1 e2 : TimelineEvent) (h1 : e1 ∈ events) (h2 : e2 ∈ events)
    (hlt : timeVal e1.time < timeVal e2.time) :
    ∃ x1 x2, xPosition events e1.time = some x1 ∧
      xPosition events e2.time = some x2 ∧ x1 < x2 := by
  obtain ⟨i, hi⟩ := domIndex_some_of_mem _ _ (time_mem_scaleDomain events e1 h1)
  obtain ⟨j, hj⟩ := domIndex_some_of_mem _ _ (time_mem_scaleDomain events e2 h2)
  obtain ⟨hil, hgi⟩ := domIndex_get _ _ _ hi
  obtain ⟨hjl, hgj⟩ := domIndex_get _ _ _ hj
  have hij : i < j := by
    rcases Nat.lt_trichotomy i j with h | h | h
    · exact h
    · exfalso
      subst h
      rw [hgi] at hgj
      rw [hgj] at hlt
      exact Nat.lt_irrefl _ hlt
    · exfalso
      have := (List.pairwise_iff_get.1 hs) ⟨j, hjl⟩ ⟨i, hil⟩ h
      rw [hgi, hgj] at this
      exact Nat.lt_asymm hlt this
  refine ⟨_, _, by rw [xPosition, hi, Option.map_some'],
    by rw [xPosition, hj, Option.map_some'], ?_⟩
  have hstep := pointScaleStep_pos (scaleDomain events).length
  have hcast : (i : ℚ) < (j : ℚ) := by exact_mod_cast hij
  have := mul_lt_mul_of_pos_left hcast hstep
  linarith

/-- C2 witness: the amended ordering evaluated on the (already sorted)
stub events `08:00` and `10:00`. -/
theorem timeline_sorted_marker_order_witness :
    (scaleDomain timelineStub).Pairwise (fun a b => timeVal a < timeVal b)
    ∧ (⟨"08:00", "task", "Start Session", "success"⟩ : TimelineEvent) ∈ timelineStub
    ∧ (⟨"10:00", "task", "Failed Task", "failure"⟩ : TimelineEvent) ∈ timelineStub
    ∧ timeVal "08:00" < timeVal "10:00"
    ∧ ∃ x1 x2, xPosition timelineStub "08:00" = some x1 ∧
        xPosition timelineStub "10:00" = some x2 ∧ x1 < x2 :=
  ⟨by decide, by decide, by decide, by decide,
    timeline_sorted_marker_order timelineStub (by decide)
      ⟨"08:00", "task", "Start Session", "success"⟩
      ⟨"10:00", "task", "Failed Task", "failure"⟩
      (by decide) (by decide) (by decide)⟩

/-- C3 counterexample: nothing clamps the emotion scalars.  A stress of
`-0.5` produces an x-scale of `0.9` while a stress of `0` produces `1`,
and a stress of `1.7` produces rotation delta `1/50` while a stress of
`1` produces `13/1000`; the spec's clamp would have collapsed these
pairs. -/
theorem emotion_clamp_cex :
    (plasmaScale ⟨-0.5, 0.8, 0.5⟩).1 = 9/10
    ∧ (plasmaScale ⟨0, 0.8, 0.5⟩).1 = 1
    ∧ ((9 : ℚ)/10) < 1
    ∧ plasmaRotDelta ⟨1.7, 0.8, 0.5⟩ = 1/50
    ∧ plasmaRotDelta ⟨1, 0.8, 0.5⟩ = 13/1000
    ∧ ((13 : ℚ)/1000) < 1/50
    ∧ specClamp01 (-0.5) = 0
    ∧ specClamp01 1.7 = 1 := by
  refine ⟨?_, ?_, by norm_num, ?_, ?_, by norm_num, ?_, ?_⟩ <;>
    norm_num [plasmaScale, plasmaRotDelta, specClamp01]

/-- C3 as amended: emotion scalars are used raw, with no clamping
anywhere: the orb's scale is injective in the emotion input, so no two
distinct raw values (such as `-0.5` and `0`, or `1.7` and `1`) are ever
treated alike. -/
theorem plasmaScale_injective (e1 e2 : Emotion)
    (h : plasmaScale e1 = plasmaScale e2) : e1 = e2 := by
  obtain ⟨s1, f1, c1⟩ := e1
  obtain ⟨s2, f2, c2⟩ := e2
  simp only [plasmaScale, Prod.mk.injEq] at h
  obtain ⟨h1, h2, h3⟩ := h
  have hs : s1 = s2 := by linarith
  have hf : f1 = f2 := by linarith
  have hc : c1 = c2 := by linarith
  simp [hs, hf, hc]

/-- C3 witness: injectivity applied at a concrete emotion value. -/
theorem plasmaScale_injective_witness :
    plasmaScale ⟨0.2, 0.8, 0.5⟩ = plasmaScale ⟨0.2, 0.8, 0.5⟩
    ∧ (⟨0.2, 0.8, 0.5⟩ : Emotion) = ⟨0.2, 0.8, 0.5⟩ :=
  ⟨rfl, plasmaScale_injective _ _ rfl⟩

/-- C4 counterexample: on the spec's own scenario (nodes `E1`,`S1`,
links `E1→S1` and `S1→99`) the dangling link is skipped and the valid
one rendered, but the skip path records nothing: one link is skipped
while the warning list stays empty. -/
theorem dangling_link_warning_cex :
    (resolveLinks danglingNodes danglingLinks).map
        (fun p => (p.1.label, p.2.label)) = [("E1", "S1")]
    ∧ skippedLinkCount danglingNodes danglingLinks = 1
    ∧ linkWarnings danglingNodes danglingLinks = []
    ∧ (linkWarnings danglingNodes danglingLinks).length = 0
    ∧ (0 : Nat) < 1 := by
  refine ⟨by decide, by decide, rfl, rfl, by decide⟩

/-- C4 as amended: a link with an unresolved endpoint is skipped at
render time with no error — rendering behaves as if the dangling links
were filtered out, every fully resolved link still renders, and both
endpoint nodes of resolved links are the found node records — but the
skip is silent: the warning list is always empty. -/
theorem link_skip_silent (nodes : List GraphNode) (links : List GraphLink) :
    resolveLinks nodes links = resolveLinks nodes (links.filter (linkResolvable nodes))
    ∧ linkWarnings nodes links = []
    ∧ ∀ l ∈ links, linkResolvable nodes l = true →
        ∃ s t, findNode nodes l.source = some s ∧ findNode nodes l.target = some t ∧
          (s, t) ∈ resolveLinks nodes links := by
  refine ⟨?_, rfl, ?_⟩
  · induction links with
    | nil => rfl
    | cons l ls ih =>
      by_cases hr : linkResolvable nodes l = true
      · rw [List.filter_cons_of_pos hr]
        have hr' := hr
        rw [linkResolvable, Bool.and_eq_true, Option.isSome_iff_exists,
          Option.isSome_iff_exists] at hr'
        obtain ⟨⟨s, hs⟩, ⟨t, ht⟩⟩ := hr'
        simp only [resolveLinks] at ih ⊢
        simp only [List.filterMap_cons, hs, ht]
        exact congrArg _ ih
      · rw [List.filter_cons_of_neg hr]
        simp only [resolveLinks] at ih ⊢
        rcases h1 : findNode nodes l.source with _ | s
        · simp [List.filterMap_cons, h1, ih]
        · rcases h2 : findNode nodes l.target with _ | t
          · simp [List.filterMap_cons, h1, h2, ih]
          · exact absurd
              (show linkResolvable nodes l = true by simp [linkResolvable, h1, h2]) hr
  · intro l hl hr
    rw [linkResolvable, Bool.and_eq_true, Option.isSome_iff_exists,
      Option.isSome_iff_exists] at hr
    obtain ⟨⟨s, hs⟩, ⟨t, ht⟩⟩ := hr
    refine ⟨s, t, hs, ht, List.mem_filterMap.2 ⟨l, hl, ?_⟩⟩
    rw [hs, ht]

/-- C4 witness: the amended statement applied to the dangling-link
scenario's resolvable link `E1→S1`. -/
theorem link_skip_silent_witness :
    (⟨1, 2⟩ : GraphLink) ∈ danglingLinks
    ∧ linkResolvable danglingNodes ⟨1, 2⟩ = true
    ∧ ∃ s t, findNode danglingNodes (1 : Nat) = some s
        ∧ findNode danglingNodes (2 : Nat) = some t
        ∧ (s, t) ∈ resolveLinks danglingNodes danglingLinks :=
  ⟨by decide, by decide,
    (link_skip_silent danglingNodes danglingLinks).2.2 ⟨1, 2⟩ (by decide) (by decide)⟩

/-- C5 counterexample: two node entries sharing id 1 render as two
spheres — `nodes.map` keeps every array entry — while the unique-id
count is 1, so rendered count per category does not equal the unique-id
count and no last-write-wins collapse happens. -/
theorem duplicate_id_render_cex :
    (renderedMeshNodes dupNodes none).length = 2
    ∧ uniqueIdCount dupNodes = 1
    ∧ (1 : Nat) < 2 := by
  refine ⟨by decide, by decide, by decide⟩

/-- C5 as amended: the number of rendered entities per category equals
the length of that category's input array — duplicate ids render as
duplicate entities, nothing deduplicates. -/
theorem rendered_count_eq_input_length (nodes : List GraphNode)
    (s : Option GraphNode) (plugins : List Plugin) (cs : ChamberState)
    (events : List TimelineEvent) :
    (renderedMeshNodes nodes s).length = nodes.length
    ∧ (renderedPluginCubes plugins cs).length = plugins.length
    ∧ (renderedMarkers events).length = events.length := by
  refine ⟨?_, ?_, ?_⟩ <;>
    simp [renderedMeshNodes, renderedPluginCubes, renderedMarkers]

/-- C6: animation derivation is deterministic in the declared inputs:
the orb's per-frame rotation increment and the scale it sets are the
same whatever the previous mutable mesh state was (they depend only on
the emotion input), and likewise the plugin cube's per-frame rotation
increments depend only on the hovered flag. -/
theorem animation_derivation_deterministic (e : Emotion) (m1 m2 : OrbMesh) :
    ((plasmaFrame e m1).rotY - m1.rotY = (plasmaFrame e m2).rotY - m2.rotY)
    ∧ (plasmaFrame e m1).scale = (plasmaFrame e m2).scale
    ∧ ∀ (b : Bool) (c1 c2 : CubeMesh),
        ((cubeFrame b c1).rotY - c1.rotY = (cubeFrame b c2).rotY - c2.rotY)
        ∧ ((cubeFrame b c1).rotX - c1.rotX = (cubeFrame b c2).rotX - c2.rotX) := by
  refine ⟨by simp [plasmaFrame], rfl, ?_⟩
  intro b c1 c2
  cases b <;> simp [cubeFrame]

/-- C7 counterexample: a `PointerLeave` carrying id 1 while plugin 2 is
hovered clears the hover to Idle — the handler runs `setHovered(null)`
unconditionally — instead of the claimed no-op. -/
theorem pointerLeave_mismatch_cex :
    chamberStep ⟨some 2, none⟩ (.pointerOut 1) = ⟨none, none⟩
    ∧ (chamberStep ⟨some 2, none⟩ (.pointerOut 1)).hovered.isSome = false
    ∧ (some 2 : Option Nat).isSome = true := by
  refine ⟨rfl, rfl, rfl⟩

/-- C7 as amended: `PointerLeave(id)` always transitions the hover state
to Idle — from `Hovering(id)` as the claim says, but equally from
`Hovering(other)` — and leaves the selection untouched. -/
theorem pointerLeave_clears_hover (s : ChamberState) (i : Nat) :
    chamberStep s (.pointerOut i) = ⟨none, s.selected⟩
    ∧ (chamberStep ⟨some i, s.selected⟩ (.pointerOut i)).hovered = none
    ∧ (chamberStep s (.pointerOut i)).selected = s.selected :=
  ⟨rfl, rfl, rfl⟩

/-- C8 counterexample: NeuralMesh tracks no hover state at all — a
pointer-enter event leaves the panel state unchanged — so a hovered but
unselected node renders with emissive intensity 0.2, not the claimed
1.5. -/
theorem hover_intensity_cex :
    meshRun none [.pointerEnter 1] = none
    ∧ nodeEmissiveIntensity
        (meshActive (meshRun none [.pointerEnter 1])
          ⟨1, "episodic", (0, 0, 0), "E1"⟩) = 0.2
    ∧ ((0.2 : ℚ) < 1.5) := by
  refine ⟨rfl, rfl, by norm_num⟩

/-- C8 as amended: a graph node's emissive intensity is 0.2 at baseline
and 1.5 exactly while the node is selected (clicked); hovering plays no
part, since pointer enter/leave events have no handler and never change
the panel state. -/
theorem node_intensity_selection_only (s : Option GraphNode) (n : GraphNode)
    (i : Nat) :
    meshStep s (.pointerEnter i) = s
    ∧ meshStep s (.pointerLeave i) = s
    ∧ (meshActive s n = true → nodeEmissiveIntensity (meshActive s n) = 1.5)
    ∧ (meshActive s n = false → nodeEmissiveIntensity (meshActive s n) = 0.2)
    ∧ ∀ (a : GraphNode), meshActive (some a) n = (a.id == n.id) := by
  refine ⟨rfl, rfl, ?_, ?_, fun a => rfl⟩
  · intro h; rw [h]; rfl
  · intro h; rw [h]; rfl

/-- C8 witness: intensity of the clicked stub node evaluates to 1.5. -/
theorem node_intensity_selection_only_witness :
    meshActive (some ⟨1, "episodic", (0, 0, 0), "E1"⟩)
        ⟨1, "episodic", (0, 0, 0), "E1"⟩ = true
    ∧ nodeEmissiveIntensity
        (meshActive (some ⟨1, "episodic", (0, 0, 0), "E1"⟩)
          ⟨1, "episodic", (0, 0, 0), "E1"⟩) = 1.5 :=
  ⟨by decide,
    (node_intensity_selection_only (some ⟨1, "episodic", (0, 0, 0), "E1"⟩)
      ⟨1, "episodic", (0, 0, 0), "E1"⟩ 1).2.2.1 (by decide)⟩

/-- C9: interaction state is isolated per panel instance: delivering an
event to panel `i` of a collection leaves every other panel's state
bit-for-bit unchanged, for each of the three stateful panel kinds. -/
theorem panel_state_isolation :
    (∀ (w : Nat → Option GraphNode) (i j : Nat) (e : MeshEvent),
        j ≠ i → deliverMesh w i e j = w j)
    ∧ (∀ (w : Nat → ChamberState) (i j : Nat) (e : ChamberEvent),
        j ≠ i → deliverChamber w i e j = w j)
    ∧ (∀ (w : Nat → Option TimelineEvent) (i j : Nat) (e : TimelineUiEvent),
        j ≠ i → deliverTimeline w i e j = w j) := by
  refine ⟨?_, ?_, ?_⟩ <;>
    · intro w i j e h
      simp [deliverMesh, deliverChamber, deliverTimeline, h]

/-- C9 witness: an event sent to panel 0 leaves panel 1 untouched, for
all three panel kinds. -/
theorem panel_state_isolation_witness :
    deliverMesh meshWorld0 0 MeshEvent.closeAction 1 = meshWorld0 1
    ∧ deliverChamber chamberWorld0 0 ChamberEvent.closeAction 1 = chamberWorld0 1
    ∧ deliverTimeline timelineWorld0 0 TimelineUiEvent.closeAction 1 = timelineWorld0 1 :=
  ⟨panel_state_isolation.1 meshWorld0 0 1 MeshEvent.closeAction (by decide),
    panel_state_isolation.2.1 chamberWorld0 0 1 ChamberEvent.closeAction (by decide),
    panel_state_isolation.2.2 timelineWorld0 0 1 TimelineUiEvent.closeAction (by decide)⟩

/-- C10: a panel mounted without data props falls back to its stub
dataset: NeuralMesh renders exactly the nodes labelled E1, S1, P1 with
both stub links (1→2 and 2→3) resolving, MindTimeline renders exactly
its four stub events, and PluginChamber its three stub plugins
WebSearch, Wolfram, NewsFeed. -/
theorem default_stub_render :
    nodesStub.map (·.label) = ["E1", "S1", "P1"]
    ∧ (renderedMeshNodes nodesStub none).map (fun r => (r.1, r.2.1)) =
        [(1, "E1"), (2, "S1"), (3, "P1")]
    ∧ (resolveLinks nodesStub linksStub).map (fun p => (p.1.label, p.2.label)) =
        [("E1", "S1"), ("S1", "P1")]
    ∧ timelineStub.map (·.label) =
        ["Start Session", "Reflected on task", "Failed Task", "Future Plan"]
    ∧ timelineStub.length = 4
    ∧ pluginsStub.map (·.name) = ["WebSearch", "Wolfram", "NewsFeed"]
    ∧ (renderedPluginCubes pluginsStub ⟨none, none⟩).length = 3 := by
  refine ⟨by decide, by decide, by decide, by decide, by decide, by decide, by decide⟩

end OmniMind
